import Mathlib

/-!
# Verification of the game-launcher menu (`launcher_menu.py`)

A shallow embedding of the launcher's data model, layout engine, hover and
click dispatch, lifecycle handoff, and per-frame render, translated from
`src/launcher_menu.py` (with the asset loader `src/utils/assets.py` treated
as an oracle `String → Except String Unit`, since image decoding is an
opaque external service).

Python integers are modelled as `Int`; Python floor division `//` is
`Int.fdiv` (they agree for the non-negative operands arising here, but
`fdiv` matches Python's semantics on all inputs).  Side effects (printing,
factory invocation, the blocking `run_game` call, `pygame.display.set_mode`
and `set_caption`) are modelled as event traces.
-/

namespace Launcher

/-- An image surface: pixel content is out of scope, only presence matters. -/
structure Surface where
deriving DecidableEq

/-- `GameEntry` dataclass: name, optional factory (identified by the name of
the game class it constructs), optional icon resource, enabled flag,
optional subtitle. -/
structure GameEntry where
  name : String
  factory : Option String
  icon : Option String := none
  enabled : Bool := true
  subtitle : Option String := none
deriving DecidableEq

/-- `pygame.Rect`: x, y, width, height. -/
structure Rect where
  x : Int
  y : Int
  w : Int
  h : Int
deriving DecidableEq

/-- `pygame.Rect.collidepoint((px, py))`: a point on the right or bottom
edge is not inside the rectangle. -/
def Rect.collidepoint (r : Rect) (p : Int × Int) : Bool :=
  decide (r.x ≤ p.1) && decide (p.1 < r.x + r.w) &&
    decide (r.y ≤ p.2) && decide (p.2 < r.y + r.h)

/-- `Rect.centery` in pygame is `y + h // 2`. -/
def Rect.centery (r : Rect) : Int := r.y + r.h.fdiv 2

/-- `Button` dataclass: entry, rect, optional preloaded icon surface. -/
structure Button where
  entry : GameEntry
  rect : Rect
  icon_surface : Option Surface
deriving DecidableEq

/-- `DEFAULT_GAMES`: the built-in five-entry catalog. -/
def DEFAULT_GAMES : List GameEntry :=
  [ { name := "Tic Tac Toe", factory := some "TicTacToeGame", icon := some "icon_tictactoe.png" },
    { name := "Othello", factory := some "OthelloGame", icon := some "icon_othello.png" },
    { name := "Connect Four", factory := some "ConnectFourGame", icon := some "icon_connectfour.png" },
    { name := "Game 4", factory := none, enabled := false, subtitle := some "Coming Soon" },
    { name := "Game 5", factory := none, enabled := false, subtitle := some "Coming Soon" } ]

/-! Class-level constants of `GameLauncher`. -/

def WIDTH : Int := 1600
def HEIGHT : Int := 900
def BUTTON_WIDTH : Int := 420
def BUTTON_HEIGHT : Int := 160
def BUTTON_SPACING_X : Int := 80
def BUTTON_SPACING_Y : Int := 60
def BUTTON_TOP : Int := 320
def BUTTON_COLUMNS : Nat := 3
def CAPTION : String := "FH Aachen Game Portal"

/-! ## Layout engine: `_compute_button_position` -/

/-- `buttons_in_row = min(BUTTON_COLUMNS, len(games) - row * BUTTON_COLUMNS)`.
Python subtraction of ints can go negative, hence `Int`. -/
def buttonsInRow (total row : Nat) : Int :=
  min (BUTTON_COLUMNS : Int) ((total : Int) - (row : Int) * (BUTTON_COLUMNS : Int))

/-- `row_width = buttons_in_row * BUTTON_WIDTH + max(0, buttons_in_row - 1) * BUTTON_SPACING_X`. -/
def rowWidth (total row : Nat) : Int :=
  buttonsInRow total row * BUTTON_WIDTH
    + max 0 (buttonsInRow total row - 1) * BUTTON_SPACING_X

/-- `row_start_x = (WIDTH - row_width) // 2`. -/
def rowStartX (total row : Nat) : Int :=
  (WIDTH - rowWidth total row).fdiv 2

/-- `_compute_button_position(index)` for a catalog of `total` entries:
returns the `(x, y)` of button `index`. -/
def compute_button_position (total index : Nat) : Int × Int :=
  let row := index / BUTTON_COLUMNS
  let col := index % BUTTON_COLUMNS
  ( rowStartX total row + (col : Int) * (BUTTON_WIDTH + BUTTON_SPACING_X),
    BUTTON_TOP + (row : Int) * (BUTTON_HEIGHT + BUTTON_SPACING_Y) )

/-- The layout formula exactly as the specification words it: the spacing
term is `(buttons_in_row - 1) * Sx` with no clamping (the spec notes the
term is zero when `buttons_in_row` is 1). -/
def spec_button_position (total index : Nat) : Int × Int :=
  let row := index / BUTTON_COLUMNS
  let col := index % BUTTON_COLUMNS
  let bir := min (BUTTON_COLUMNS : Int) ((total : Int) - (row : Int) * (BUTTON_COLUMNS : Int))
  let rw := bir * BUTTON_WIDTH + (bir - 1) * BUTTON_SPACING_X
  let rsx := (WIDTH - rw).fdiv 2
  ( rsx + (col : Int) * (BUTTON_WIDTH + BUTTON_SPACING_X),
    BUTTON_TOP + (row : Int) * (BUTTON_HEIGHT + BUTTON_SPACING_Y) )

/-- The rectangle `_build_buttons` creates for button `index` of a catalog
with `total` entries. -/
def buttonRect (total index : Nat) : Rect :=
  ⟨(compute_button_position total index).1, (compute_button_position total index).2,
    BUTTON_WIDTH, BUTTON_HEIGHT⟩

/-! ## Button construction: `_build_buttons` -/

/-- Events observable during button construction: one layout call per entry,
plus a printed diagnostic for each icon that failed to load. -/
inductive BuildEvent where
  | layoutCall (index : Nat)
  | diag (msg : String)
deriving DecidableEq

/-- Python truthiness of an `Optional[str]`: `None` and `""` are falsy. -/
def strTruthy (o : Option String) : Bool :=
  match o with
  | none => false
  | some s => !s.isEmpty

/-- One iteration of the `_build_buttons` loop body at `index` for entry
`e`: compute the position, build the rect, try to load the icon (a caught
failure leaves `icon_surface = None` and prints a diagnostic). -/
def buildButton (total : Nat) (loadImage : String → Except String Surface)
    (index : Nat) (e : GameEntry) : Button × List BuildEvent :=
  let pos := compute_button_position total index
  let rect : Rect := ⟨pos.1, pos.2, BUTTON_WIDTH, BUTTON_HEIGHT⟩
  let loaded : Option Surface × List BuildEvent :=
    if strTruthy e.icon then
      match loadImage (e.icon.getD "") with
      | Except.ok s => (some s, [])
      | Except.error m =>
          (none, [BuildEvent.diag ("Could not load icon for " ++ e.name ++ ": " ++ m)])
    else (none, [])
  (⟨e, rect, loaded.1⟩, BuildEvent.layoutCall index :: loaded.2)

/-- The `enumerate(self.games)` loop of `_build_buttons`, carrying the
running index. -/
def buildButtonsAux (total : Nat) (loadImage : String → Except String Surface) :
    List GameEntry → Nat → List Button × List BuildEvent
  | [], _ => ([], [])
  | e :: rest, index =>
      let hd := buildButton total loadImage index e
      let tl := buildButtonsAux total loadImage rest (index + 1)
      (hd.1 :: tl.1, hd.2 ++ tl.2)

/-- `_build_buttons`: one button per catalog entry, in catalog order. -/
def _build_buttons (games : List GameEntry)
    (loadImage : String → Except String Surface) : List Button × List BuildEvent :=
  buildButtonsAux games.length loadImage games 0

/-- `_load_logo`: a caught failure yields `None` plus a printed diagnostic. -/
def _load_logo (loadImage : String → Except String Surface) :
    Option Surface × List String :=
  match loadImage "logo.jpg" with
  | Except.ok s => (some s, [])
  | Except.error m => (none, ["Could not load logo: " ++ m])

/-! ## Lifecycle: `_reset_display`, `_launch_game`, `_handle_click` -/

/-- Side effects of the click/launch path, in program order. -/
inductive Event where
  | printMsg (msg : String)
  | factoryCall (f : String)
  | runGame (f : String)
  | setMode (w h : Int)
  | setCaption (c : String)
deriving DecidableEq

/-- `_reset_display`: re-create the launcher window (`set_mode` at the fixed
resolution, then re-apply the fixed caption). -/
def _reset_display : List Event :=
  [Event.setMode WIDTH HEIGHT, Event.setCaption CAPTION]

/-- `_launch_game(entry)`: guard on `not entry.enabled or entry.factory is
None`, else print, invoke the factory, invoke the instance's blocking
`run_game`, then `_reset_display`. -/
def _launch_game (entry : GameEntry) : List Event :=
  if !entry.enabled then []
  else
    match entry.factory with
    | none => []
    | some f =>
        Event.printMsg ("Starting " ++ entry.name ++ "...")
          :: Event.factoryCall f :: Event.runGame f :: _reset_display

/-- Result of `_handle_click`: the emitted event trace and the value of
`self.hovered_button` afterwards. -/
structure ClickResult where
  trace : List Event
  hovered : Option Nat
deriving DecidableEq

/-- The `for idx, button in enumerate(self.buttons)` loop of
`_handle_click`: first button containing the position whose entry is
enabled launches and sets `hovered_button`, then `break`. -/
def clickScan (p : Int × Int) : List Button → Nat → Option Nat → ClickResult
  | [], _, hov => ⟨[], hov⟩
  | b :: rest, index, hov =>
      if b.rect.collidepoint p && b.entry.enabled then
        ⟨_launch_game b.entry, some index⟩
      else clickScan p rest (index + 1) hov

/-- `_handle_click(position)` given the current buttons and the current
`hovered_button`. -/
def _handle_click (buttons : List Button) (p : Int × Int)
    (hovered : Option Nat) : ClickResult :=
  clickScan p buttons 0 hovered

/-! ## Hover resolution (top of `GameLauncher.run`'s loop) -/

/-- The hover scan in `run`: first button containing the mouse position
whose entry is enabled, then `break`. -/
def hoverScan (p : Int × Int) : List Button → Nat → Option Nat
  | [], _ => none
  | b :: rest, index =>
      if b.rect.collidepoint p && b.entry.enabled then some index
      else hoverScan p rest (index + 1)

/-- Per-frame hover update: `run` sets `self.hovered_button = None`, then
scans; the previous frame's value (`_prev`) is overwritten unread. -/
def frameHover (_prev : Option Nat) (buttons : List Button)
    (mousePos : Int × Int) : Option Nat :=
  hoverScan mousePos buttons 0

/-! ## Render: `draw_ui`

The output surface (`self.SCREEN`) is modelled as the list of drawing
commands issued into it this frame.  Font metrics are opaque: the height of
a `FONT_BUTTON.render(name, ...)` surface is an oracle `fontHeight`.
Static pre-rendered text surfaces are identified by their key in
`TEXT_SURFACES`; blitting one at a `get_rect(center=(cx, cy))` rect is the
command `blitCentered key cx cy`. -/

def Color : Type := Nat × Nat × Nat
deriving DecidableEq

def FH_TURQUOISE : Color := (0, 166, 160)
def BLACK : Color := (0, 0, 0)
def WHITE : Color := (255, 255, 255)
def DARK_GRAY : Color := (40, 40, 40)
def LIGHT_GRAY : Color := (230, 230, 230)
def BUTTON_COLOR : Color := (0, 130, 125)
def BUTTON_HOVER : Color := (0, 190, 180)
def DISABLED_COLOR : Color := (140, 140, 140)

inductive DrawCmd where
  | fill (c : Color)
  | blitCentered (key : String) (cx cy : Int)
  | blitAt (key : String) (x y : Int)
  | drawRect (c : Color) (r : Rect) (borderRadius : Int)
  | drawRectOutline (c : Color) (r : Rect) (lineWidth borderRadius : Int)
  | blitIcon (x y : Int)
  | blitLabel (text : String) (c : Color) (x y : Int)
  | blitSub (text : String) (c : Color) (x y : Int)
  | blitLogo (x y : Int)
  | flip
deriving DecidableEq

/-- The draw commands for one button (one iteration of the button loop in
`draw_ui`). -/
def drawButton (fontHeight : String → Int) (hovered : Option Nat)
    (index : Nat) (b : Button) : List DrawCmd :=
  let rect := b.rect
  let entry := b.entry
  let is_hovered := hovered == some index
  let shadow_rect : Rect := ⟨rect.x + 6, rect.y + 6, rect.w, rect.h⟩
  let color0 := if entry.enabled then BUTTON_COLOR else DISABLED_COLOR
  let color := if entry.enabled && is_hovered then BUTTON_HOVER else color0
  let text_color := if entry.enabled then WHITE else LIGHT_GRAY
  let labelH := fontHeight entry.name
  let text_x_offset : Int := if b.icon_surface.isSome then 130 else 30
  let text_x := rect.x + text_x_offset
  let text_y := rect.centery - labelH.fdiv 2
  [DrawCmd.drawRect DARK_GRAY shadow_rect 15, DrawCmd.drawRect color rect 15]
    ++ (if entry.enabled && is_hovered then [DrawCmd.drawRectOutline WHITE rect 4 15] else [])
    ++ (if b.icon_surface.isSome then [DrawCmd.blitIcon (rect.x + 30) (rect.centery - 40)] else [])
    ++ [DrawCmd.blitLabel entry.name text_color text_x text_y]
    ++ (if !entry.enabled && strTruthy entry.subtitle then
          [DrawCmd.blitSub (entry.subtitle.getD "") LIGHT_GRAY text_x (text_y + labelH)]
        else [])

/-- The button loop of `draw_ui` over `enumerate(self.buttons)`. -/
def drawButtons (fontHeight : String → Int) (hovered : Option Nat) :
    List Button → Nat → List DrawCmd
  | [], _ => []
  | b :: rest, index =>
      drawButton fontHeight hovered index b ++ drawButtons fontHeight hovered rest (index + 1)

/-- Launcher state: the fields of `GameLauncher` the core logic touches.
`screen` is the output surface, modelled by the commands drawn into it. -/
structure LauncherState where
  games : List GameEntry
  buttons : List Button
  logo : Option Surface
  hovered_button : Option Nat
  screen : List DrawCmd
deriving DecidableEq

/-- `draw_ui`: clear, static text, every button, optional logo, footer,
flip.  It writes only `self.SCREEN`. -/
def draw_ui (fontHeight : String → Int) (st : LauncherState) : LauncherState :=
  let cmds :=
    [ DrawCmd.fill FH_TURQUOISE,
      DrawCmd.blitCentered "title" (WIDTH.fdiv 2) 120,
      DrawCmd.blitCentered "subtitle" (WIDTH.fdiv 2) 200,
      DrawCmd.blitCentered "instruction" (WIDTH.fdiv 2) 250 ]
    ++ drawButtons fontHeight st.hovered_button st.buttons 0
    ++ (if st.logo.isSome then [DrawCmd.blitLogo (WIDTH - 430) (HEIGHT - 170)] else [])
    ++ [DrawCmd.blitAt "footer" 30 (HEIGHT - 40), DrawCmd.flip]
  { st with screen := cmds }

/-! ## Construction: `GameLauncher.__init__` -/

/-- `GameLauncher.__init__(games)`: take the given catalog or the default,
build the buttons, load the logo.  Construction is total: no validation of
the catalog is performed anywhere. Returned alongside the state are the
construction-time events (layout calls and asset diagnostics). -/
def GameLauncher.init (gamesArg : Option (List GameEntry))
    (loadImage : String → Except String Surface) :
    LauncherState × List BuildEvent × List String :=
  let games := gamesArg.getD DEFAULT_GAMES
  let built := _build_buttons games loadImage
  let logo := _load_logo loadImage
  ( { games := games, buttons := built.1, logo := logo.1,
      hovered_button := none, screen := [] },
    built.2, logo.2 )

/-- Predicate picking out factory invocations in an event trace. -/
def Event.isFactoryCall : Event → Bool
  | Event.factoryCall _ => true
  | _ => false

/-- An asset oracle on which every load succeeds. -/
def okLoad : String → Except String Surface := fun _ => Except.ok ⟨⟩

/-- An asset oracle on which every load fails. -/
def failLoad : String → Except String Surface := fun _ => Except.error "file not found"

/-- The button `_build_buttons` makes for the first default entry under a
succeeding asset oracle: row 0 is 3 buttons wide, so it sits at (90, 320). -/
def ticTacToeButton : Button :=
  ⟨{ name := "Tic Tac Toe", factory := some "TicTacToeGame",
     icon := some "icon_tictactoe.png" },
   ⟨90, 320, 420, 160⟩, some ⟨⟩⟩

/-- The button `_build_buttons` makes for the fourth default entry
(disabled, no icon): row 1 is 2 buttons wide, so it sits at (340, 540). -/
def gameFourButton : Button :=
  ⟨{ name := "Game 4", factory := none, icon := none, enabled := false,
     subtitle := some "Coming Soon" },
   ⟨340, 540, 420, 160⟩, none⟩

/-- An enabled entry with no factory: the configuration §7 of the spec says
must be rejected at construction time. -/
def enabledNoFactoryEntry : GameEntry :=
  { name := "Broken", factory := none, enabled := true }

/-! ## Helper lemmas -/

/-- A valid row (one that holds at least one button) has between 1 and
`BUTTON_COLUMNS` buttons. -/
theorem buttonsInRow_bounds (total row : Nat) (h : row * BUTTON_COLUMNS < total) :
    1 ≤ buttonsInRow total row ∧ buttonsInRow total row ≤ 3 := by
  unfold buttonsInRow BUTTON_COLUMNS
  unfold BUTTON_COLUMNS at h
  constructor
  · refine le_min (by norm_num) ?_
    have : (row : Int) * 3 + 1 ≤ (total : Int) := by exact_mod_cast h
    omega
  · exact min_le_left _ _

/-- `rowWidth` takes one of three values on valid rows. -/
theorem rowWidth_cases (total row : Nat) (h : row * BUTTON_COLUMNS < total) :
    (buttonsInRow total row = 1 ∧ rowWidth total row = 420) ∨
    (buttonsInRow total row = 2 ∧ rowWidth total row = 920) ∨
    (buttonsInRow total row = 3 ∧ rowWidth total row = 1420) := by
  obtain ⟨h1, h3⟩ := buttonsInRow_bounds total row h
  have hc : buttonsInRow total row = 1 ∨ buttonsInRow total row = 2 ∨
      buttonsInRow total row = 3 := by omega
  unfold rowWidth BUTTON_WIDTH BUTTON_SPACING_X
  rcases hc with hb | hb | hb <;> rw [hb] <;> simp

theorem buildButton_entry (total : Nat) (li : String → Except String Surface)
    (index : Nat) (e : GameEntry) : (buildButton total li index e).1.entry = e := rfl

theorem buildButton_rect (total : Nat) (li : String → Except String Surface)
    (index : Nat) (e : GameEntry) :
    (buildButton total li index e).1.rect = buttonRect total index := rfl

/-- Indexing into the buttons built by the `_build_buttons` loop. -/
theorem buildButtonsAux_getElem (total : Nat) (li : String → Except String Surface)
    (l : List GameEntry) (idx k : Nat) :
    ((buildButtonsAux total li l idx).1)[k]? =
      (l[k]?).map fun e => (buildButton total li (idx + k) e).1 := by
  induction l generalizing idx k with
  | nil => simp [buildButtonsAux]
  | cons e rest ih =>
      cases k with
      | zero => simp [buildButtonsAux]
      | succ k =>
          have harith : idx + 1 + k = idx + (k + 1) := by omega
          have := ih (idx + 1) k
          rw [harith] at this
          simp only [buildButtonsAux, List.getElem?_cons_succ]
          exact this

theorem buildButtonsAux_length (total : Nat) (li : String → Except String Surface)
    (l : List GameEntry) (idx : Nat) :
    (buildButtonsAux total li l idx).1.length = l.length := by
  induction l generalizing idx with
  | nil => rfl
  | cons e rest ih => simp [buildButtonsAux, ih]

theorem _build_buttons_getElem (games : List GameEntry)
    (li : String → Except String Surface) (k : Nat) :
    ((_build_buttons games li).1)[k]? =
      (games[k]?).map fun e => (buildButton games.length li k e).1 := by
  unfold _build_buttons
  rw [buildButtonsAux_getElem]
  simp

theorem _build_buttons_length (games : List GameEntry)
    (li : String → Except String Surface) :
    (_build_buttons games li).1.length = games.length :=
  buildButtonsAux_length _ _ _ _

/-- Two distinct button indices of the same catalog never share a point:
different rows are separated vertically (the vertical pitch 220 exceeds the
height 160), and inside a row the columns are separated horizontally (the
horizontal pitch 500 exceeds the width 420, and both buttons share the same
`row_start_x`). -/
theorem buttonRect_collide_inj (total i j : Nat) (p : Int × Int)
    (hi : (buttonRect total i).collidepoint p = true)
    (hj : (buttonRect total j).collidepoint p = true) : i = j := by
  unfold buttonRect Rect.collidepoint compute_button_position at hi hj
  simp only [BUTTON_WIDTH, BUTTON_HEIGHT, BUTTON_TOP, BUTTON_SPACING_X, BUTTON_SPACING_Y,
    BUTTON_COLUMNS, Bool.and_eq_true, decide_eq_true_eq] at hi hj
  obtain ⟨⟨⟨hix1, hix2⟩, hiy1⟩, hiy2⟩ := hi
  obtain ⟨⟨⟨hjx1, hjx2⟩, hjy1⟩, hjy2⟩ := hj
  by_cases hrow : i / 3 = j / 3
  · rw [← hrow] at hjx1 hjx2
    generalize rowStartX total (i / 3) = s at hix1 hix2 hjx1 hjx2
    omega
  · exfalso
    omega

/-- If no button passes the hit test, the click loop falls through: empty
trace, `hovered_button` untouched. -/
theorem clickScan_of_no_hit (p : Int × Int) (bs : List Button) (idx : Nat)
    (hov : Option Nat)
    (h : ∀ b ∈ bs, ¬(b.rect.collidepoint p && b.entry.enabled) = true) :
    clickScan p bs idx hov = ⟨[], hov⟩ := by
  induction bs generalizing idx with
  | nil => rfl
  | cons b rest ih =>
      have hb := h b (List.mem_cons_self b rest)
      simp only [clickScan, hb, if_false]
      exact ih idx.succ fun b' hb' => h b' (List.mem_cons_of_mem b hb')

/-- The click loop stops at the first button that passes the hit test and
launches it. -/
theorem clickScan_first_hit (p : Int × Int) (bs : List Button) (idx : Nat)
    (hov : Option Nat) (k : Nat) (b : Button)
    (hget : bs[k]? = some b)
    (hhit : (b.rect.collidepoint p && b.entry.enabled) = true)
    (hbefore : ∀ j b', j < k → bs[j]? = some b' →
      (b'.rect.collidepoint p && b'.entry.enabled) = false) :
    clickScan p bs idx hov = ⟨_launch_game b.entry, some (idx + k)⟩ := by
  induction bs generalizing idx k with
  | nil => simp at hget
  | cons hd rest ih =>
      cases k with
      | zero =>
          simp only [List.getElem?_cons_zero, Option.some.injEq] at hget
          subst hget
          simp [clickScan, hhit]
      | succ k =>
          have hhd : (hd.rect.collidepoint p && hd.entry.enabled) = false :=
            hbefore 0 hd (Nat.succ_pos k) (by simp)
          simp only [List.getElem?_cons_succ] at hget
          simp only [clickScan, hhd, Bool.false_eq_true, if_false]
          have := ih (idx + 1) k hget
            (fun j b' hj hb' =>
              hbefore (j + 1) b' (Nat.succ_lt_succ hj) (by simpa using hb'))
          rw [show idx + 1 + k = idx + (k + 1) from by omega] at this
          exact this

/-- Characterisation of the hover loop: a returned index points at the
first button (from `idx` on) that contains the pointer and is enabled. -/
theorem hoverScan_eq_some (p : Int × Int) (bs : List Button) (idx r : Nat)
    (h : hoverScan p bs idx = some r) :
    ∃ k b, bs[k]? = some b ∧ r = idx + k ∧
      b.rect.collidepoint p = true ∧ b.entry.enabled = true ∧
      ∀ j b', j < k → bs[j]? = some b' →
        ¬(b'.rect.collidepoint p = true ∧ b'.entry.enabled = true) := by
  induction bs generalizing idx with
  | nil => simp [hoverScan] at h
  | cons hd rest ih =>
      by_cases hhd : (hd.rect.collidepoint p && hd.entry.enabled) = true
      · refine ⟨0, hd, by simp, ?_, ?_, ?_, ?_⟩
        · simp only [hoverScan, hhd, if_true, Option.some.injEq] at h
          omega
        · exact (Bool.and_eq_true _ _).mp hhd |>.1
        · exact (Bool.and_eq_true _ _).mp hhd |>.2
        · intro j b' hj _
          exact absurd hj (Nat.not_lt_zero j)
      · simp only [hoverScan, hhd, if_false] at h
        obtain ⟨k, b, hget, hr, hc, he, hbef⟩ := ih (idx + 1) h
        refine ⟨k + 1, b, by simpa using hget, by omega, hc, he, ?_⟩
        intro j b' hj hb'
        cases j with
        | zero =>
            simp only [List.getElem?_cons_zero, Option.some.injEq] at hb'
            subst hb'
            intro hcontra
            exact hhd ((Bool.and_eq_true _ _).mpr ⟨hcontra.1, hcontra.2⟩)
        | succ j =>
            simp only [List.getElem?_cons_succ] at hb'
            exact hbef j b' (Nat.lt_of_succ_lt_succ hj) hb'

/-- Every button handed out by `_build_buttons` carries the rect computed
by the layout engine for its index, and its entry is the catalog entry at
that index. -/
theorem _build_buttons_rect (games : List GameEntry)
    (li : String → Except String Surface) (k : Nat) (b : Button)
    (h : ((_build_buttons games li).1)[k]? = some b) :
    b.rect = buttonRect games.length k ∧ games[k]? = some b.entry := by
  rw [_build_buttons_getElem] at h
  cases hg : games[k]? with
  | none => rw [hg] at h; simp at h
  | some e =>
      rw [hg] at h
      simp at h
      subst h
      exact ⟨rfl, rfl⟩

/-- Bridge from a `Fin`-bounded (hence decidable) fact to the
`getElem?`-phrased one. -/
theorem forall_of_forall_fin {α : Type} (l : List α) (P : Nat → α → Prop)
    (h : ∀ j : Fin l.length, P j.1 (l.get j)) :
    ∀ j a, l[j]? = some a → P j a := by
  intro j a hj
  obtain ⟨hlt, hval⟩ := List.getElem?_eq_some_iff.mp hj
  have := h ⟨j, hlt⟩
  rw [List.get_eq_getElem] at this
  rw [hval] at this
  exact this

/-- A failed icon load at catalog position `k` leaves its diagnostic in the
construction-event trace. -/
theorem buildButtonsAux_diag_mem (total : Nat) (li : String → Except String Surface)
    (l : List GameEntry) (idx k : Nat) (e : GameEntry) (m : String)
    (hget : l[k]? = some e) (hicon : strTruthy e.icon = true)
    (herr : li (e.icon.getD "") = Except.error m) :
    BuildEvent.diag ("Could not load icon for " ++ e.name ++ ": " ++ m)
      ∈ (buildButtonsAux total li l idx).2 := by
  induction l generalizing idx k with
  | nil => simp at hget
  | cons hd rest ih =>
      cases k with
      | zero =>
          simp only [List.getElem?_cons_zero, Option.some.injEq] at hget
          subst hget
          simp [buildButtonsAux, buildButton, hicon, herr]
      | succ k =>
          simp only [List.getElem?_cons_succ] at hget
          simp only [buildButtonsAux, List.mem_append]
          exact Or.inr (ih (idx + 1) k hget)

/-! ## The claims -/

/-- **C2.** For every catalog of `total` entries and every index in range,
`_compute_button_position` returns exactly the values of the spec's layout
formula: `row = index div C`, `col = index mod C`,
`buttons_in_row = min(C, total - row*C)`,
`row_width = buttons_in_row*W + (buttons_in_row - 1)*Sx`,
`row_start_x = (screen_width - row_width) / 2`,
`x = row_start_x + col*(W + Sx)`, `y = Top + row*(H + Sy)`. -/
theorem compute_button_position_matches_spec_formula (total index : Nat)
    (h : index < total) :
    compute_button_position total index = spec_button_position total index := by
  have hrow : (index / BUTTON_COLUMNS) * BUTTON_COLUMNS < total :=
    Nat.lt_of_le_of_lt (Nat.div_mul_le_self index BUTTON_COLUMNS) h
  obtain ⟨h1, _⟩ := buttonsInRow_bounds total (index / BUTTON_COLUMNS) hrow
  have hw : rowWidth total (index / BUTTON_COLUMNS)
      = buttonsInRow total (index / BUTTON_COLUMNS) * BUTTON_WIDTH
        + (buttonsInRow total (index / BUTTON_COLUMNS) - 1) * BUTTON_SPACING_X := by
    unfold rowWidth
    rw [max_eq_right (by omega :
      (0 : Int) ≤ buttonsInRow total (index / BUTTON_COLUMNS) - 1)]
  unfold compute_button_position spec_button_position rowStartX
  simp only [buttonsInRow] at hw
  simp only [hw, buttonsInRow]

/-- Witness for C2: index 4 of a 5-entry catalog (the second button of the
short final row). -/
theorem compute_button_position_matches_spec_formula_witness :
    4 < 5 ∧ compute_button_position 5 4 = spec_button_position 5 4 :=
  ⟨by decide, compute_button_position_matches_spec_formula 5 4 (by decide)⟩

/-- **C3.** Every row that actually holds a button is horizontally
centered: `row_start_x + row_width/2` is within 1 of `screen_width/2`. -/
theorem rows_horizontally_centered (total row : Nat)
    (h : row * BUTTON_COLUMNS < total) :
    (rowStartX total row + (rowWidth total row).fdiv 2 - WIDTH.fdiv 2).natAbs ≤ 1 := by
  rcases rowWidth_cases total row h with ⟨_, hw⟩ | ⟨_, hw⟩ | ⟨_, hw⟩ <;>
    · unfold rowStartX WIDTH
      rw [hw]
      decide

/-- Witness for C3: the short final row (row 1) of a 5-entry catalog. -/
theorem rows_horizontally_centered_witness :
    1 * BUTTON_COLUMNS < 5 ∧
      (rowStartX 5 1 + (rowWidth 5 1).fdiv 2 - WIDTH.fdiv 2).natAbs ≤ 1 :=
  ⟨by decide, rows_horizontally_centered 5 1 (by decide)⟩

/-- **C4.** On every frame (whatever the previous frame's hover state) and
for every pointer position, hover resolution yields no index or exactly one
index; a yielded index points at a button whose entry (the catalog entry at
that index) is enabled and whose rectangle contains the pointer, and no
earlier button in catalog order both contains the pointer and is enabled. -/
theorem hover_is_first_enabled_containing_button (games : List GameEntry)
    (li : String → Except String Surface) (prev : Option Nat) (p : Int × Int)
    (i : Nat)
    (h : frameHover prev (_build_buttons games li).1 p = some i) :
    (∃ b, ((_build_buttons games li).1)[i]? = some b ∧
        b.rect.collidepoint p = true ∧ b.entry.enabled = true ∧
        games[i]? = some b.entry ∧
        ∀ j b', j < i → ((_build_buttons games li).1)[j]? = some b' →
          ¬(b'.rect.collidepoint p = true ∧ b'.entry.enabled = true)) ∧
    ∀ i', frameHover prev (_build_buttons games li).1 p = some i' → i' = i := by
  obtain ⟨k, b, hget, hr, hc, he, hbef⟩ := hoverScan_eq_some p _ 0 i h
  rw [Nat.zero_add] at hr
  subst hr
  refine ⟨⟨b, hget, hc, he, (_build_buttons_rect games li _ b hget).2, hbef⟩, ?_⟩
  intro i' h'
  exact Option.some.inj (h'.symm.trans h)

/-- Witness for C4: pointer at (100, 330) over the default catalog lands on
button 0 ("Tic Tac Toe"), whatever hover the previous frame left behind. -/
theorem hover_is_first_enabled_containing_button_witness :
    (∃ b, ((_build_buttons DEFAULT_GAMES okLoad).1)[0]? = some b ∧
        b.rect.collidepoint (100, 330) = true ∧ b.entry.enabled = true ∧
        DEFAULT_GAMES[0]? = some b.entry ∧
        ∀ j b', j < 0 → ((_build_buttons DEFAULT_GAMES okLoad).1)[j]? = some b' →
          ¬(b'.rect.collidepoint (100, 330) = true ∧ b'.entry.enabled = true)) ∧
    ∀ i', frameHover (some 4) (_build_buttons DEFAULT_GAMES okLoad).1 (100, 330)
        = some i' → i' = 0 :=
  hover_is_first_enabled_containing_button DEFAULT_GAMES okLoad (some 4)
    (100, 330) 0 (by decide)

/-- **C5.** A press inside a disabled button's rectangle, or outside every
button's rectangle, invokes no factory and is a no-op: empty event trace
and `hovered_button` unchanged. -/
theorem click_on_disabled_or_outside_is_noop (games : List GameEntry)
    (li : String → Except String Surface) (p : Int × Int) (hov : Option Nat)
    (h : (∃ (k : Nat) (b : Button), ((_build_buttons games li).1)[k]? = some b ∧
            b.rect.collidepoint p = true ∧ b.entry.enabled = false) ∨
         (∀ (k : Nat) (b : Button), ((_build_buttons games li).1)[k]? = some b →
            b.rect.collidepoint p = false)) :
    _handle_click (_build_buttons games li).1 p hov = ⟨[], hov⟩ := by
  unfold _handle_click
  apply clickScan_of_no_hit
  intro b hb
  obtain ⟨j, hj⟩ := List.mem_iff_getElem?.mp hb
  intro hhit
  rw [Bool.and_eq_true] at hhit
  rcases h with ⟨k, bk, hbk, hcol, hdis⟩ | hout
  · have hrj := (_build_buttons_rect games li j b hj).1
    have hrk := (_build_buttons_rect games li k bk hbk).1
    have hjk : j = k := by
      apply buttonRect_collide_inj games.length j k p
      · rw [← hrj]; exact hhit.1
      · rw [← hrk]; exact hcol
    subst hjk
    rw [hj] at hbk
    have hbb : b = bk := Option.some.inj hbk
    subst hbb
    rw [hhit.2] at hdis
    exact Bool.noConfusion hdis
  · have := hout j b hj
    rw [hhit.1] at this
    exact Bool.noConfusion this

/-- Witness for C5: a press at (350, 550), inside the disabled "Game 4"
button of the default catalog, leaves trace and hover untouched. -/
theorem click_on_disabled_or_outside_is_noop_witness :
    _handle_click (_build_buttons DEFAULT_GAMES okLoad).1 (350, 550) (some 1)
      = ⟨[], some 1⟩ :=
  click_on_disabled_or_outside_is_noop DEFAULT_GAMES okLoad (350, 550) (some 1)
    (Or.inl ⟨3, gameFourButton, by decide, by decide, by decide⟩)

/-- **C1.** For a press inside exactly one enabled button's rectangle (over
a catalog satisfying the data-model invariant "enabled entries have a
factory"), the click handler emits exactly one factory invocation — that
entry's — followed by the instance's blocking `run_game`, then re-acquires
the display (`set_mode` at the fixed 1600×900 with the fixed caption
re-applied); and the next frame's hover is recomputed fresh from the mouse
position, identical to what any other carried-over hover state would give. -/
theorem click_in_unique_enabled_button_launches_once (games : List GameEntry)
    (li : String → Except String Surface) (p : Int × Int) (hov : Option Nat)
    (k : Nat) (b : Button)
    (hinv : ∀ e ∈ games, e.enabled = true → e.factory ≠ none)
    (hget : ((_build_buttons games li).1)[k]? = some b)
    (hcol : b.rect.collidepoint p = true) (hen : b.entry.enabled = true)
    (huniq : ∀ j b', ((_build_buttons games li).1)[j]? = some b' →
        b'.rect.collidepoint p = true → b'.entry.enabled = true → j = k) :
    ∃ f, b.entry.factory = some f ∧
      _handle_click (_build_buttons games li).1 p hov =
        ⟨[Event.printMsg ("Starting " ++ b.entry.name ++ "..."),
          Event.factoryCall f, Event.runGame f, Event.setMode 1600 900,
          Event.setCaption "FH Aachen Game Portal"], some k⟩ ∧
      (_handle_click (_build_buttons games li).1 p hov).trace.filter
          Event.isFactoryCall = [Event.factoryCall f] ∧
      ∀ hov' mouse,
        frameHover ((_handle_click (_build_buttons games li).1 p hov).hovered)
            (_build_buttons games li).1 mouse
          = frameHover hov' (_build_buttons games li).1 mouse := by
  have hmem : b.entry ∈ games :=
    List.getElem?_mem (_build_buttons_rect games li k b hget).2
  have hfac := hinv b.entry hmem hen
  cases hf : b.entry.factory with
  | none => exact absurd hf hfac
  | some f =>
      have hbefore : ∀ j b', j < k → ((_build_buttons games li).1)[j]? = some b' →
          (b'.rect.collidepoint p && b'.entry.enabled) = false := by
        intro j b' hjk hb'
        cases hb'' : (b'.rect.collidepoint p && b'.entry.enabled) with
        | false => rfl
        | true =>
            rw [Bool.and_eq_true] at hb''
            exact absurd (huniq j b' hb' hb''.1 hb''.2) (Nat.ne_of_lt hjk)
      have hscan : _handle_click (_build_buttons games li).1 p hov =
          ⟨_launch_game b.entry, some k⟩ := by
        unfold _handle_click
        have := clickScan_first_hit p ((_build_buttons games li).1) 0 hov k b hget
          (by rw [Bool.and_eq_true]; exact ⟨hcol, hen⟩) hbefore
        rw [Nat.zero_add] at this
        exact this
      refine ⟨f, rfl, ?_, ?_, ?_⟩
      · rw [hscan]
        simp [_launch_game, hen, hf, _reset_display, WIDTH, HEIGHT, CAPTION]
      · rw [hscan]
        simp [_launch_game, hen, hf, _reset_display, Event.isFactoryCall]
      · intro hov' mouse
        rfl

/-- Witness for C1: pressing at (100, 330) on the default catalog hits only
button 0 and launches "Tic Tac Toe" exactly once. -/
theorem click_in_unique_enabled_button_launches_once_witness :
    ∃ f, ticTacToeButton.entry.factory = some f ∧
      _handle_click (_build_buttons DEFAULT_GAMES okLoad).1 (100, 330) (some 2) =
        ⟨[Event.printMsg ("Starting " ++ ticTacToeButton.entry.name ++ "..."),
          Event.factoryCall f, Event.runGame f, Event.setMode 1600 900,
          Event.setCaption "FH Aachen Game Portal"], some 0⟩ ∧
      (_handle_click (_build_buttons DEFAULT_GAMES okLoad).1 (100, 330)
          (some 2)).trace.filter Event.isFactoryCall = [Event.factoryCall f] ∧
      ∀ hov' mouse,
        frameHover ((_handle_click (_build_buttons DEFAULT_GAMES okLoad).1
              (100, 330) (some 2)).hovered)
            (_build_buttons DEFAULT_GAMES okLoad).1 mouse
          = frameHover hov' (_build_buttons DEFAULT_GAMES okLoad).1 mouse :=
  click_in_unique_enabled_button_launches_once DEFAULT_GAMES okLoad (100, 330)
    (some 2) 0 ticTacToeButton (by decide) (by decide) (by decide) (by decide)
    (forall_of_forall_fin ((_build_buttons DEFAULT_GAMES okLoad).1)
      (fun j b' => b'.rect.collidepoint (100, 330) = true →
        b'.entry.enabled = true → j = 0)
      (by decide))

/-- **C6.** The code does not perform the construction-time rejection the
claim describes: `GameLauncher.__init__` accepts a catalog containing an
enabled entry with no factory (construction is total, no configuration
error), and the violation is only met at click time, where `_launch_game`'s
guard silently returns without invoking anything. -/
theorem init_accepts_enabled_entry_without_factory
    (li : String → Except String Surface) :
    (GameLauncher.init (some [enabledNoFactoryEntry]) li).1.games
        = [enabledNoFactoryEntry] ∧
    enabledNoFactoryEntry.enabled = true ∧
    enabledNoFactoryEntry.factory = none ∧
    _launch_game enabledNoFactoryEntry = [] ∧
    _handle_click (_build_buttons [enabledNoFactoryEntry] li).1 (600, 330) none
      = ⟨[], some 0⟩ :=
  ⟨rfl, rfl, rfl, rfl, rfl⟩

/-- **C7.** A failed icon load for entry `k` is recovered locally: that
button's `icon_surface` is `None`, the diagnostic is in the construction
trace, and every entry — including `k` — still gets its button with the
layout-computed rect; a failed logo load likewise degrades to `None` plus
a diagnostic. -/
theorem asset_failure_recovered_locally (games : List GameEntry)
    (li : String → Except String Surface) (k : Nat) (e : GameEntry) (m : String)
    (hget : games[k]? = some e)
    (hicon : strTruthy e.icon = true)
    (herr : li (e.icon.getD "") = Except.error m) :
    (∃ b : Button, ((_build_buttons games li).1)[k]? = some b ∧
        b.icon_surface = none ∧ b.entry = e ∧ b.rect = buttonRect games.length k) ∧
    BuildEvent.diag ("Could not load icon for " ++ e.name ++ ": " ++ m)
      ∈ (_build_buttons games li).2 ∧
    (_build_buttons games li).1.length = games.length ∧
    (∀ (j : Nat) (e' : GameEntry), games[j]? = some e' →
      ∃ b' : Button, ((_build_buttons games li).1)[j]? = some b' ∧
        b'.entry = e' ∧ b'.rect = buttonRect games.length j) ∧
    (∀ m' : String, li "logo.jpg" = Except.error m' →
      _load_logo li = (none, ["Could not load logo: " ++ m'])) := by
  refine ⟨?_, ?_, _build_buttons_length games li, ?_, ?_⟩
  · refine ⟨(buildButton games.length li k e).1, ?_, ?_, rfl, rfl⟩
    · rw [_build_buttons_getElem, hget]
      rfl
    · simp [buildButton, hicon, herr]
  · exact buildButtonsAux_diag_mem games.length li games 0 k e m hget hicon herr
  · intro j e' hj
    refine ⟨(buildButton games.length li j e').1, ?_, rfl, rfl⟩
    rw [_build_buttons_getElem, hj]
    rfl
  · intro m' h'
    unfold _load_logo
    rw [h']

/-- Witness for C7: every asset load failing on the default catalog; entry
0's icon fails, its button survives with no icon, the diagnostic is traced,
and the logo degrades the same way. -/
theorem asset_failure_recovered_locally_witness :
    (∃ b : Button, ((_build_buttons DEFAULT_GAMES failLoad).1)[0]? = some b ∧
        b.icon_surface = none ∧
        b.entry = { name := "Tic Tac Toe", factory := some "TicTacToeGame",
                    icon := some "icon_tictactoe.png" } ∧
        b.rect = buttonRect DEFAULT_GAMES.length 0) ∧
    BuildEvent.diag ("Could not load icon for " ++ "Tic Tac Toe" ++ ": "
        ++ "file not found") ∈ (_build_buttons DEFAULT_GAMES failLoad).2 ∧
    (_build_buttons DEFAULT_GAMES failLoad).1.length = DEFAULT_GAMES.length ∧
    (∀ (j : Nat) (e' : GameEntry), DEFAULT_GAMES[j]? = some e' →
      ∃ b' : Button, ((_build_buttons DEFAULT_GAMES failLoad).1)[j]? = some b' ∧
        b'.entry = e' ∧ b'.rect = buttonRect DEFAULT_GAMES.length j) ∧
    (∀ m' : String, failLoad "logo.jpg" = Except.error m' →
      _load_logo failLoad = (none, ["Could not load logo: " ++ m'])) :=
  asset_failure_recovered_locally DEFAULT_GAMES failLoad 0
    { name := "Tic Tac Toe", factory := some "TicTacToeGame",
      icon := some "icon_tictactoe.png" }
    "file not found" (by decide) (by decide) rfl

/-- **C8.** The empty catalog builds zero buttons with an empty event trace
(in particular the layout computation is never invoked), and the per-frame
render still draws the title, the footer and the (loaded) logo. -/
theorem empty_catalog_no_buttons_chrome_still_drawn
    (li : String → Except String Surface) (fh : String → Int)
    (hov : Option Nat) (scr : List DrawCmd) :
    _build_buttons [] li = ([], []) ∧
    (draw_ui fh ⟨[], [], some ⟨⟩, hov, scr⟩).screen =
      [DrawCmd.fill FH_TURQUOISE,
       DrawCmd.blitCentered "title" 800 120,
       DrawCmd.blitCentered "subtitle" 800 200,
       DrawCmd.blitCentered "instruction" 800 250,
       DrawCmd.blitLogo 1170 730,
       DrawCmd.blitAt "footer" 30 860,
       DrawCmd.flip] ∧
    DrawCmd.blitCentered "title" 800 120
      ∈ (draw_ui fh ⟨[], [], some ⟨⟩, hov, scr⟩).screen ∧
    DrawCmd.blitAt "footer" 30 860
      ∈ (draw_ui fh ⟨[], [], some ⟨⟩, hov, scr⟩).screen ∧
    DrawCmd.blitLogo 1170 730
      ∈ (draw_ui fh ⟨[], [], some ⟨⟩, hov, scr⟩).screen := by
  refine ⟨rfl, rfl, ?_, ?_, ?_⟩ <;>
    · rw [show (draw_ui fh ⟨[], [], some ⟨⟩, hov, scr⟩).screen =
          [DrawCmd.fill FH_TURQUOISE,
           DrawCmd.blitCentered "title" 800 120,
           DrawCmd.blitCentered "subtitle" 800 200,
           DrawCmd.blitCentered "instruction" 800 250,
           DrawCmd.blitLogo 1170 730,
           DrawCmd.blitAt "footer" 30 860,
           DrawCmd.flip] from rfl]
      decide

/-- **C9.** `draw_ui` mutates nothing but the output surface: the catalog,
the buttons (hence every rect and entry), the logo and the hovered index
are all unchanged after the call. -/
theorem draw_ui_reads_but_never_mutates_state (fh : String → Int)
    (st : LauncherState) :
    (draw_ui fh st).games = st.games ∧
    (draw_ui fh st).buttons = st.buttons ∧
    (draw_ui fh st).logo = st.logo ∧
    (draw_ui fh st).hovered_button = st.hovered_button :=
  ⟨rfl, rfl, rfl, rfl⟩

/-- **C10.** The default catalog has exactly five entries satisfying the
entry invariant (enabled ⇒ factory present; the first three enabled, the
last two factory-less and disabled), and `_build_buttons` over any catalog
yields one button per entry, in catalog order, each 420×160. -/
theorem default_catalog_and_built_buttons_invariant (games : List GameEntry)
    (li : String → Except String Surface) (k : Nat) (b : Button)
    (hget : ((_build_buttons games li).1)[k]? = some b) :
    DEFAULT_GAMES.length = 5 ∧
    (∀ e ∈ DEFAULT_GAMES, e.enabled = true → e.factory ≠ none) ∧
    (∀ e ∈ DEFAULT_GAMES, e.factory = none → e.enabled = false) ∧
    (DEFAULT_GAMES.take 3).all (fun e => e.enabled) = true ∧
    (DEFAULT_GAMES.drop 3).all (fun e => !e.enabled && e.factory.isNone) = true ∧
    (_build_buttons games li).1.length = games.length ∧
    games[k]? = some b.entry ∧
    b.rect.w = 420 ∧ b.rect.h = 160 := by
  refine ⟨by decide, by decide, by decide, by decide, by decide,
    _build_buttons_length games li, (_build_buttons_rect games li k b hget).2,
    ?_, ?_⟩
  · rw [(_build_buttons_rect games li k b hget).1]; rfl
  · rw [(_build_buttons_rect games li k b hget).1]; rfl

/-- Witness for C10 at button 0 of the default catalog. -/
theorem default_catalog_and_built_buttons_invariant_witness :
    DEFAULT_GAMES.length = 5 ∧
    (∀ e ∈ DEFAULT_GAMES, e.enabled = true → e.factory ≠ none) ∧
    (∀ e ∈ DEFAULT_GAMES, e.factory = none → e.enabled = false) ∧
    (DEFAULT_GAMES.take 3).all (fun e => e.enabled) = true ∧
    (DEFAULT_GAMES.drop 3).all (fun e => !e.enabled && e.factory.isNone) = true ∧
    (_build_buttons DEFAULT_GAMES okLoad).1.length = DEFAULT_GAMES.length ∧
    DEFAULT_GAMES[0]? = some ticTacToeButton.entry ∧
    ticTacToeButton.rect.w = 420 ∧ ticTacToeButton.rect.h = 160 :=
  default_catalog_and_built_buttons_invariant DEFAULT_GAMES okLoad 0
    ticTacToeButton (by decide)

end Launcher
